import Mathlib

/-!
Verification development for the SVM "exact" payment scheme facilitator
(`ExactSvmScheme` in
`src/typescript/packages/mechanisms/svm/src/exact/facilitator/register.ts`,
configuration types in `src/unnamed/part_000`).

The TypeScript class is shallowly embedded: external library calls
(transaction decoding, instruction parsing, ATA derivation) and the signer
collaborator become explicit environment records whose functions return
`Option`/`Except` (a thrown JS exception is `none`/`.error`); the signer
calls the scheme performs are recorded in an explicit trace list.  Machine
integers (`u64` amounts, `bigint` microlamports) are `Nat`.
-/

namespace X402Svm

/-- Program address of the SPL Token program (`TOKEN_PROGRAM_ADDRESS` from
`@solana-program/token`). -/
def TOKEN_PROGRAM_ADDRESS : String := "TokenkegQfeZyiNwAJbNbGKPFXCWuBvf9Ss623VQ5DA"

/-- Program address of the Token-2022 program (`TOKEN_2022_PROGRAM_ADDRESS`
from `@solana-program/token-2022`). -/
def TOKEN_2022_PROGRAM_ADDRESS : String := "TokenzQdBNbLqP5VEhdkAS6EPFLC1PHnBqCXEpPxuEb"

/-- Program address of the Compute Budget program
(`COMPUTE_BUDGET_PROGRAM_ADDRESS` from `@solana-program/compute-budget`). -/
def COMPUTE_BUDGET_PROGRAM_ADDRESS : String := "ComputeBudget111111111111111111111111111111"

/-- Modelled from the spec: the fixed ceiling on the compute-unit price, in
microlamports (`MAX_COMPUTE_UNIT_PRICE_MICROLAMPORTS` lives in
`../../constants`, which is not among the provided sources; the code comment
at its use site says "5 lamports per compute unit", i.e. 5,000,000
microlamports).  The claims only depend on it being a fixed constant. -/
def MAX_COMPUTE_UNIT_PRICE_MICROLAMPORTS : Nat := 5000000

/-- A thrown JavaScript value: `isErrorInstance` records whether it is an
`Error` instance (`error instanceof Error`), `message` its `.message`
(respectively its `String(error)` rendering for non-`Error` values). -/
structure TSError where
  isErrorInstance : Bool
  message : String
deriving DecidableEq, Repr

/-- A decompiled instruction (the fields of `VerifiableInstruction` that the
validation logic reads): program address, optional account-address list,
optional data bytes.  Account roles are never inspected by the code under
verification and are omitted. -/
structure Instruction where
  programAddress : String
  accounts : Option (List String)
  data : Option (List Nat)
deriving DecidableEq, Repr

instance : Inhabited Instruction := ⟨⟨"", none, none⟩⟩

/-- Context handed to a custom instruction verifier
(`InstructionVerifierContext`). -/
structure VerifierContext where
  signerAddresses : List String
  feePayer : String
  instructionIndex : Nat

/-- One custom verifier rule (`InstructionVerifierConfig`): the program ids it
matches, optional allowed positions, optional verification callback.  The
callback returns `.error e` when the JS callback would throw `e`. -/
structure CustomVerifierRule where
  programIds : List String
  allowedPositions : Option (List Nat)
  verify : Option (Instruction → VerifierContext → Except TSError Unit)

/-- Caller-supplied verification configuration (`SvmVerificationConfig`):
`none` is an absent field (defaulted during the merge). -/
structure SvmVerificationConfig where
  maxInstructionCount : Option Nat := none
  allowAdditionalInstructions : Option Bool := none
  allowedProgramIds : Option (List String) := none
  blockedProgramIds : Option (List String) := none
  customVerifiers : Option (List CustomVerifierRule) := none
  requireFeePayerNotInInstructions : Option Bool := none

/-- Fully-defaulted configuration, the result of
`{ ...DEFAULT_VERIFICATION_CONFIG, ...this.verificationConfig }`. -/
structure MergedVerificationConfig where
  maxInstructionCount : Nat
  allowAdditionalInstructions : Bool
  allowedProgramIds : List String
  blockedProgramIds : List String
  customVerifiers : List CustomVerifierRule
  requireFeePayerNotInInstructions : Bool

/-- Spread-merge of `DEFAULT_VERIFICATION_CONFIG` with the caller's
configuration (absent fields take the default: max 3 instructions, no
additional instructions, empty allow/block lists, no custom verifiers,
fee payer required absent from instruction accounts). -/
def mergeConfig (c : SvmVerificationConfig) : MergedVerificationConfig where
  maxInstructionCount := c.maxInstructionCount.getD 3
  allowAdditionalInstructions := c.allowAdditionalInstructions.getD false
  allowedProgramIds := c.allowedProgramIds.getD []
  blockedProgramIds := c.blockedProgramIds.getD []
  customVerifiers := c.customVerifiers.getD []
  requireFeePayerNotInInstructions := c.requireFeePayerNotInInstructions.getD true

/-- Result of a `transferChecked` parse (`parsedTransfer` fields read by the
code: authority, mint and destination account addresses and the amount). -/
structure ParsedTransfer where
  authority : String
  mint : String
  destination : String
  amount : Nat
deriving DecidableEq, Repr

/-- Environment of external parsing library calls.  Each models the
corresponding `@solana-program/*` helper; a parse that would throw returns
`false`/`none`. -/
structure ParseEnv where
  parseSetComputeUnitLimitOk : Instruction → Bool
  parseSetComputeUnitPrice : Instruction → Option Nat
  parseTransferCheckedToken : Instruction → Option ParsedTransfer
  parseTransferChecked2022 : Instruction → Option ParsedTransfer
  findAssociatedTokenPda : String → String → String → Option String

/-- An opaque decoded transaction (result of `decodeTransactionFromPayload`). -/
structure SvmTransaction where
  raw : String
deriving DecidableEq, Repr

/-- Environment of transaction decoding calls from `../../utils` and
`@solana/kit`.  `decodeTransaction` is called inside a `try`: a throw is
`none`.  `decompileInstructions` (the composition of
`getCompiledTransactionMessageDecoder().decode`, `decompileTransactionMessage`
and `.instructions ?? []`) and `getTokenPayer`
(`getTokenPayerFromTransaction`) are NOT wrapped in a `try` in `verify`: a
throw there is `.error` and propagates. -/
structure DecodeEnv where
  decodeTransaction : String → Option SvmTransaction
  decompileInstructions : SvmTransaction → Except TSError (List Instruction)
  getTokenPayer : SvmTransaction → Except TSError (Option String)

/-- The signer collaborator (`FacilitatorSvmSigner`): its controlled
addresses and the four effectful operations, each `.error` when it would
throw. `signTransaction rawTx feePayer network`,
`simulateTransaction signedTx network`, `sendTransaction signedTx network`,
`confirmTransaction signature network`. -/
structure SignerEnv where
  addresses : List String
  signTransaction : String → String → String → Except TSError String
  simulateTransaction : String → String → Except TSError Unit
  sendTransaction : String → String → Except TSError String
  confirmTransaction : String → String → Except TSError Unit

/-- The scheme instance: a signer and the constructor-supplied verification
configuration (default `{}`), mirroring the `ExactSvmScheme` class fields. -/
structure ExactSvmScheme where
  signer : SignerEnv
  verificationConfig : SvmVerificationConfig

/-- A payment payload restricted to the fields `verify`/`settle` read:
`payload.accepted.scheme`, `payload.accepted.network` and
`payload.payload.transaction` (the base64-encoded transaction). -/
structure PaymentPayload where
  acceptedScheme : String
  acceptedNetwork : String
  transaction : String

/-- Payment requirements restricted to the fields read: scheme, network,
asset (mint), payTo, amount (a `u64` rendered as `Nat`) and
`extra.feePayer`.  `extraFeePayer = none` models an absent `extra`, an
absent `feePayer` field or a non-string value; `some ""` models the empty
string (falsy in JS, hence also rejected). -/
structure PaymentRequirements where
  scheme : String
  network : String
  asset : String
  payTo : String
  amount : Nat
  extraFeePayer : Option String

/-- Result of `validateInstructions` (`InstructionValidationResult`). -/
structure InstructionValidationResult where
  isValid : Bool
  reason : Option String
  transferInstructionIndex : Nat
deriving DecidableEq, Repr

/-- Verification verdict (`VerifyResponse`). -/
structure VerifyResponse where
  isValid : Bool
  invalidReason : Option String
  payer : String
deriving DecidableEq, Repr

/-- Settlement verdict (`SettleResponse`). -/
structure SettleResponse where
  success : Bool
  transaction : String
  network : String
  errorReason : Option String
  payer : String
deriving DecidableEq, Repr

/-- One effectful call on the signer collaborator, recorded in a trace. -/
inductive SignerCall where
  | sign
  | simulate
  | send
  | confirm
deriving DecidableEq, Repr

/-- `instructionIncludesAccount`: whether the instruction's account list
contains the given address (absent list: `false`). -/
def instructionIncludesAccount (instruction : Instruction) (accountAddress : String) : Bool :=
  match instruction.accounts with
  | none => false
  | some accs => accs.any (fun a => a = accountAddress)

/-- `verifyComputeLimitInstruction`: program must be the compute-budget
program, first data byte must be discriminator 2, and the payload must parse
as a SetComputeUnitLimit instruction; any failure throws the fixed reason
(returned here as `.error`). -/
def verifyComputeLimitInstruction (penv : ParseEnv) (instruction : Instruction) :
    Except String Unit :=
  if instruction.programAddress ≠ COMPUTE_BUDGET_PROGRAM_ADDRESS then
    .error "invalid_exact_svm_payload_transaction_instructions_compute_limit_instruction"
  else
    match instruction.data with
    | none =>
        .error "invalid_exact_svm_payload_transaction_instructions_compute_limit_instruction"
    | some d =>
        if d.head? ≠ some 2 then
          .error "invalid_exact_svm_payload_transaction_instructions_compute_limit_instruction"
        else if penv.parseSetComputeUnitLimitOk instruction then .ok ()
        else
          .error "invalid_exact_svm_payload_transaction_instructions_compute_limit_instruction"

/-- `verifyComputePriceInstruction`: program must be the compute-budget
program, first data byte must be discriminator 3, the payload must parse as
a SetComputeUnitPrice instruction, and the parsed microlamport price must
not exceed `MAX_COMPUTE_UNIT_PRICE_MICROLAMPORTS` (the "too_high" error is
re-thrown out of the catch; parse failures throw the plain reason). -/
def verifyComputePriceInstruction (penv : ParseEnv) (instruction : Instruction) :
    Except String Unit :=
  if instruction.programAddress ≠ COMPUTE_BUDGET_PROGRAM_ADDRESS then
    .error "invalid_exact_svm_payload_transaction_instructions_compute_price_instruction"
  else
    match instruction.data with
    | none =>
        .error "invalid_exact_svm_payload_transaction_instructions_compute_price_instruction"
    | some d =>
        if d.head? ≠ some 3 then
          .error "invalid_exact_svm_payload_transaction_instructions_compute_price_instruction"
        else
          match penv.parseSetComputeUnitPrice instruction with
          | none =>
              .error "invalid_exact_svm_payload_transaction_instructions_compute_price_instruction"
          | some microLamports =>
              if MAX_COMPUTE_UNIT_PRICE_MICROLAMPORTS < microLamports then
                .error
                  "invalid_exact_svm_payload_transaction_instructions_compute_price_instruction_too_high"
              else .ok ()

/-- Reason string produced when a custom verifier callback throws `e`
(`error instanceof Error ? error.message : custom_verifier_failed_<id>`). -/
def customVerifierReason (programId : String) (e : TSError) : String :=
  if e.isErrorInstance then e.message else "custom_verifier_failed_" ++ programId

/-- Runs a matched custom verifier rule's callback (if any) on an additional
instruction; returns the rejection reason if it throws. -/
def runCustomVerifier (rule : CustomVerifierRule) (signerAddresses : List String)
    (feePayer : String) (ix : Instruction) (i : Nat) : Option String :=
  match rule.verify with
  | none => none
  | some f =>
      match f ix ⟨signerAddresses, feePayer, i⟩ with
      | .ok _ => none
      | .error e => some (customVerifierReason ix.programAddress e)

/-- Policy check of one additional instruction (the body of the index ≥ 3
loop in `validateInstructions`): block-list first; then the first matching
custom-verifier rule (position constraint, then callback), skipping the
allow-list; otherwise the allow-list, which is permissive when empty.
`none` means the instruction is permitted. -/
def checkAdditionalInstruction (config : MergedVerificationConfig)
    (signerAddresses : List String) (feePayer : String) (ix : Instruction) (i : Nat) :
    Option String :=
  let programId := ix.programAddress
  if config.blockedProgramIds.contains programId then
    some ("invalid_exact_svm_payload_blocked_program_" ++ programId)
  else
    match config.customVerifiers.find? (fun v => v.programIds.contains programId) with
    | some rule =>
        match rule.allowedPositions with
        | some ps =>
            if ps.contains i then runCustomVerifier rule signerAddresses feePayer ix i
            else
              some ("invalid_exact_svm_payload_instruction_position_" ++ programId ++ "_at_"
                ++ toString i)
        | none => runCustomVerifier rule signerAddresses feePayer ix i
    | none =>
        if config.allowedProgramIds.length > 0 ∧ ¬ config.allowedProgramIds.contains programId
        then some ("invalid_exact_svm_payload_program_not_allowed_" ++ programId)
        else none

/-- The index ≥ 3 loop of `validateInstructions`: checks the given
instructions, starting at index `i`, returning the first rejection reason. -/
def validateAdditionalFrom (config : MergedVerificationConfig)
    (signerAddresses : List String) (feePayer : String) :
    List Instruction → Nat → Option String
  | [], _ => none
  | ix :: rest, i =>
      match checkAdditionalInstruction config signerAddresses feePayer ix i with
      | some r => some r
      | none => validateAdditionalFrom config signerAddresses feePayer rest (i + 1)

/-- `validateInstructions`: merges the configuration with defaults, then in
order checks minimum count, maximum count, fee payer absent from all
instruction accounts (when required), instruction 0 is a compute-limit
instruction, instruction 1 is a compute-price instruction, instruction 2 is
a token transfer, and the additional-instruction policy for index ≥ 3. -/
def validateInstructions (penv : ParseEnv) (verificationConfig : SvmVerificationConfig)
    (instructions : List Instruction) (signerAddresses : List String) (feePayer : String) :
    InstructionValidationResult :=
  let config := mergeConfig verificationConfig
  if instructions.length < 3 then
    ⟨false, some "invalid_exact_svm_payload_transaction_instructions_length_too_few", 2⟩
  else if instructions.length > config.maxInstructionCount then
    ⟨false,
      some ("invalid_exact_svm_payload_transaction_instructions_length_exceeds_max_"
        ++ toString config.maxInstructionCount), 2⟩
  else if config.requireFeePayerNotInInstructions
      ∧ instructions.any (fun ix => instructionIncludesAccount ix feePayer) then
    ⟨false, some "invalid_exact_svm_payload_fee_payer_in_instruction_accounts", 2⟩
  else
    match verifyComputeLimitInstruction penv (instructions.getD 0 default) with
    | .error msg => ⟨false, some msg, 2⟩
    | .ok _ =>
        match verifyComputePriceInstruction penv (instructions.getD 1 default) with
        | .error msg => ⟨false, some msg, 2⟩
        | .ok _ =>
            let transferProgramId := (instructions.getD 2 default).programAddress
            if transferProgramId ≠ TOKEN_PROGRAM_ADDRESS
                ∧ transferProgramId ≠ TOKEN_2022_PROGRAM_ADDRESS then
              ⟨false, some "invalid_exact_svm_payload_no_transfer_instruction_at_index_2", 2⟩
            else if instructions.length > 3 then
              if ¬ config.allowAdditionalInstructions then
                ⟨false, some "invalid_exact_svm_payload_additional_instructions_not_allowed", 2⟩
              else
                match validateAdditionalFrom config signerAddresses feePayer
                    (instructions.drop 3) 3 with
                | some r => ⟨false, some r, 2⟩
                | none => ⟨true, none, 2⟩
            else ⟨true, none, 2⟩

/-- Outcome of the non-effectful part of `verify` (steps 1 through the
amount check): an uncaught exception, a structured rejection with the
best-effort payer, or readiness to sign/simulate (carrying the validated fee
payer and the resolved payer). -/
inductive VerifyOutcome where
  | thrown (e : TSError)
  | rejected (reason : String) (payer : String)
  | readyToSign (feePayer : String) (payer : String)
deriving Repr

/-- Steps of `verify` that run after the payer is resolved: instruction
policy validation (step 3) and transfer verification (step 4), through the
amount check. -/
def postPayerStage (penv : ParseEnv) (scheme : ExactSvmScheme)
    (reqs : PaymentRequirements) (instructions : List Instruction)
    (fp : String) (payer : String) : VerifyOutcome :=
  let validationResult := validateInstructions penv scheme.verificationConfig instructions
    scheme.signer.addresses fp
  if validationResult.isValid = false then
    .rejected (validationResult.reason.getD "invalid_instructions") payer
  else
    match instructions[validationResult.transferInstructionIndex]? with
    | none =>
        -- `instructions[idx]` would be `undefined` and `.programAddress` would
        -- throw a TypeError; unreachable because validation forces length ≥ 3.
        .thrown ⟨true, "TypeError"⟩
    | some transferIx =>
        let programAddress := transferIx.programAddress
        if programAddress ≠ TOKEN_PROGRAM_ADDRESS
            ∧ programAddress ≠ TOKEN_2022_PROGRAM_ADDRESS then
          .rejected "invalid_exact_svm_payload_no_transfer_instruction" payer
        else
          match (if programAddress = TOKEN_PROGRAM_ADDRESS then
              penv.parseTransferCheckedToken transferIx
            else penv.parseTransferChecked2022 transferIx) with
          | none => .rejected "invalid_exact_svm_payload_no_transfer_instruction" payer
          | some parsedTransfer =>
              if scheme.signer.addresses.contains parsedTransfer.authority then
                .rejected "invalid_exact_svm_payload_transaction_fee_payer_transferring_funds"
                  payer
              else if parsedTransfer.mint ≠ reqs.asset then
                .rejected "invalid_exact_svm_payload_mint_mismatch" payer
              else
                match penv.findAssociatedTokenPda reqs.asset reqs.payTo
                    (if programAddress = TOKEN_PROGRAM_ADDRESS then TOKEN_PROGRAM_ADDRESS
                      else TOKEN_2022_PROGRAM_ADDRESS) with
                | none => .rejected "invalid_exact_svm_payload_recipient_mismatch" payer
                | some expectedDestATA =>
                    if parsedTransfer.destination ≠ expectedDestATA then
                      .rejected "invalid_exact_svm_payload_recipient_mismatch" payer
                    else if parsedTransfer.amount < reqs.amount then
                      .rejected "invalid_exact_svm_payload_amount_insufficient" payer
                    else .readyToSign fp payer

/-- Steps 1–4 of `verify`: requirement gates (scheme, network, fee payer
present and managed), transaction decode, message decompilation (uncaught on
throw), payer resolution (uncaught on throw), then `postPayerStage`. -/
def verifyCore (penv : ParseEnv) (denv : DecodeEnv) (scheme : ExactSvmScheme)
    (payload : PaymentPayload) (reqs : PaymentRequirements) : VerifyOutcome :=
  if payload.acceptedScheme ≠ "exact" ∨ reqs.scheme ≠ "exact" then
    .rejected "unsupported_scheme" ""
  else if payload.acceptedNetwork ≠ reqs.network then
    .rejected "network_mismatch" ""
  else
    match reqs.extraFeePayer with
    | none => .rejected "invalid_exact_svm_payload_missing_fee_payer" ""
    | some fp =>
        if fp = "" then .rejected "invalid_exact_svm_payload_missing_fee_payer" ""
        else if ¬ scheme.signer.addresses.contains fp then
          .rejected "fee_payer_not_managed_by_facilitator" ""
        else
          match denv.decodeTransaction payload.transaction with
          | none => .rejected "invalid_exact_svm_payload_transaction_could_not_be_decoded" ""
          | some tx =>
              match denv.decompileInstructions tx with
              | .error e => .thrown e
              | .ok instructions =>
                  match denv.getTokenPayer tx with
                  | .error e => .thrown e
                  | .ok none =>
                      .rejected "invalid_exact_svm_payload_no_transfer_instruction" ""
                  | .ok (some payer) =>
                      postPayerStage penv scheme reqs instructions fp payer

/-- `verify`: runs `verifyCore`, then step 5 (sign for simulation, then
simulate), catching signer throws into the
`transaction_simulation_failed: <message>` reason.  Returns the structured
response (or the uncaught exception) together with the trace of signer
calls made. -/
def verify (penv : ParseEnv) (denv : DecodeEnv) (scheme : ExactSvmScheme)
    (payload : PaymentPayload) (reqs : PaymentRequirements) :
    Except TSError VerifyResponse × List SignerCall :=
  match verifyCore penv denv scheme payload reqs with
  | .thrown e => (.error e, [])
  | .rejected reason payer => (.ok ⟨false, some reason, payer⟩, [])
  | .readyToSign fp payer =>
      match scheme.signer.signTransaction payload.transaction fp reqs.network with
      | .error e =>
          (.ok ⟨false, some ("transaction_simulation_failed: " ++ e.message), payer⟩,
            [.sign])
      | .ok fullySignedTransaction =>
          match scheme.signer.simulateTransaction fullySignedTransaction reqs.network with
          | .error e =>
              (.ok ⟨false, some ("transaction_simulation_failed: " ++ e.message), payer⟩,
                [.sign, .simulate])
          | .ok _ => (.ok ⟨true, none, payer⟩, [.sign, .simulate])

/-- `settle`: runs `verify` as a precondition (an uncaught verify exception
propagates); on a failed verification returns the failure response without
further signer calls; otherwise signs, sends and confirms, collapsing any
throw into the generic `transaction_failed` reason.  The second component
extends verify's signer-call trace with settle's own calls. -/
def settle (penv : ParseEnv) (denv : DecodeEnv) (scheme : ExactSvmScheme)
    (payload : PaymentPayload) (reqs : PaymentRequirements) :
    Except TSError SettleResponse × List SignerCall :=
  match verify penv denv scheme payload reqs with
  | (.error e, tr) => (.error e, tr)
  | (.ok valid, tr) =>
      if valid.isValid = false then
        (.ok
          { success := false
            network := payload.acceptedNetwork
            transaction := ""
            errorReason := some (valid.invalidReason.getD "verification_failed")
            payer := if valid.payer = "" then "" else valid.payer }, tr)
      else
        let feePayer := reqs.extraFeePayer.getD ""
        let failureResponse : SettleResponse :=
          { success := false
            errorReason := some "transaction_failed"
            transaction := ""
            network := payload.acceptedNetwork
            payer := if valid.payer = "" then "" else valid.payer }
        match scheme.signer.signTransaction payload.transaction feePayer reqs.network with
        | .error _ => (.ok failureResponse, tr ++ [.sign])
        | .ok fullySignedTransaction =>
            match scheme.signer.sendTransaction fullySignedTransaction reqs.network with
            | .error _ => (.ok failureResponse, tr ++ [.sign, .send])
            | .ok signature =>
                match scheme.signer.confirmTransaction signature reqs.network with
                | .error _ => (.ok failureResponse, tr ++ [.sign, .send, .confirm])
                | .ok _ =>
                    (.ok
                      { success := true
                        transaction := signature
                        network := payload.acceptedNetwork
                        errorReason := none
                        payer := valid.payer }, tr ++ [.sign, .send, .confirm])

/-- Result record of `getExtra`. -/
structure GetExtraResult where
  feePayer : Option String
deriving DecidableEq, Repr

/-- `getExtra`: picks `addresses[Math.floor(Math.random() * addresses.length)]`;
`rand` models the `Math.random()` draw (a value in `[0, 1)`), and an
out-of-range index yields `undefined` (`none`), as JS indexing does. -/
def getExtra (signer : SignerEnv) (rand : ℚ) : GetExtraResult :=
  let addresses := signer.addresses
  let randomIndex := (⌊rand * addresses.length⌋).toNat
  ⟨addresses[randomIndex]?⟩

/-! ## Structural lemmas about `validateInstructions` -/

/-- Every result of `validateInstructions` fixes the transfer instruction
index at 2. -/
theorem validateInstructions_transferIndex (penv : ParseEnv)
    (cfg : SvmVerificationConfig) (instrs : List Instruction)
    (signers : List String) (fp : String) :
    (validateInstructions penv cfg instrs signers fp).transferInstructionIndex = 2 := by
  simp only [validateInstructions]
  repeat' split
  all_goals rfl

/-- A valid result of `validateInstructions` implies at least three
instructions. -/
theorem validateInstructions_valid_length (penv : ParseEnv)
    (cfg : SvmVerificationConfig) (instrs : List Instruction)
    (signers : List String) (fp : String)
    (h : (validateInstructions penv cfg instrs signers fp).isValid = true) :
    3 ≤ instrs.length := by
  by_contra hlt
  push_neg at hlt
  unfold validateInstructions at h
  rw [if_pos hlt] at h
  simp at h

/-! ## Structural lemmas about `postPayerStage`, `verifyCore` and `verify` -/

/-- Every outcome of `postPayerStage` is a throw, a rejection carrying the
resolved payer, or readiness to sign carrying the fee payer and the resolved
payer. -/
theorem postPayerStage_payer (penv : ParseEnv) (scheme : ExactSvmScheme)
    (reqs : PaymentRequirements) (instrs : List Instruction) (fp payer : String) :
    (∃ e, postPayerStage penv scheme reqs instrs fp payer = .thrown e)
    ∨ (∃ r, postPayerStage penv scheme reqs instrs fp payer = .rejected r payer)
    ∨ postPayerStage penv scheme reqs instrs fp payer = .readyToSign fp payer := by
  simp only [postPayerStage]
  repeat' split
  all_goals simp

/-- `postPayerStage` never throws: a valid instruction-validation result
forces at least three instructions, so indexing at the fixed transfer index 2
succeeds. -/
theorem postPayerStage_not_thrown (penv : ParseEnv) (scheme : ExactSvmScheme)
    (reqs : PaymentRequirements) (instrs : List Instruction) (fp payer : String)
    (e : TSError) : postPayerStage penv scheme reqs instrs fp payer ≠ .thrown e := by
  simp only [postPayerStage]
  split
  · simp
  · rename_i hvalid
    split
    · rename_i hnone
      exfalso
      rw [validateInstructions_transferIndex] at hnone
      have hlen : 3 ≤ instrs.length := by
        apply validateInstructions_valid_length penv scheme.verificationConfig instrs
          scheme.signer.addresses fp
        simpa using hvalid
      rw [List.getElem?_eq_none_iff] at hnone
      omega
    · repeat' split
      all_goals simp

/-- When the requirement gates pass and decoding, decompilation and payer
resolution succeed, `verifyCore` is exactly `postPayerStage`. -/
theorem verifyCore_eq_of_gates (penv : ParseEnv) (denv : DecodeEnv)
    (scheme : ExactSvmScheme) (payload : PaymentPayload) (reqs : PaymentRequirements)
    (fp : String) (tx : SvmTransaction) (instrs : List Instruction) (payer : String)
    (hs1 : payload.acceptedScheme = "exact") (hs2 : reqs.scheme = "exact")
    (hn : payload.acceptedNetwork = reqs.network)
    (hfp : reqs.extraFeePayer = some fp) (hfpne : fp ≠ "")
    (hmanaged : scheme.signer.addresses.contains fp = true)
    (hdec : denv.decodeTransaction payload.transaction = some tx)
    (hinstr : denv.decompileInstructions tx = .ok instrs)
    (hpayer : denv.getTokenPayer tx = .ok (some payer)) :
    verifyCore penv denv scheme payload reqs = postPayerStage penv scheme reqs instrs fp payer := by
  simp only [verifyCore, hs1, hs2, hn, hfp, hfpne, hmanaged, hdec, hinstr, hpayer]
  simp

/-- Unfolding lemma: a rejected `verifyCore` gives the structured invalid
response with an empty trace. -/
theorem verify_of_core_rejected (penv : ParseEnv) (denv : DecodeEnv)
    (scheme : ExactSvmScheme) (payload : PaymentPayload) (reqs : PaymentRequirements)
    (r p : String)
    (h : verifyCore penv denv scheme payload reqs = .rejected r p) :
    verify penv denv scheme payload reqs = (.ok ⟨false, some r, p⟩, []) := by
  simp only [verify, h]

/-- The trace of signer calls made by `verify` is one of `[]`, `[sign]`,
`[sign, simulate]`. -/
theorem verify_trace_cases (penv : ParseEnv) (denv : DecodeEnv)
    (scheme : ExactSvmScheme) (payload : PaymentPayload) (reqs : PaymentRequirements) :
    (verify penv denv scheme payload reqs).2 = []
    ∨ (verify penv denv scheme payload reqs).2 = [SignerCall.sign]
    ∨ (verify penv denv scheme payload reqs).2 = [SignerCall.sign, SignerCall.simulate] := by
  simp only [verify]
  repeat' split
  all_goals simp

/-! ## Concrete fixtures for witnesses and counterexamples -/

/-- Parse environment in which the three required instructions parse
successfully: the compute price parses to 1 microlamport and the transfer
parses to 10 units of `MINT1` sent to `DEST1` with authority `AUTH1`. -/
def fixtureParseEnv : ParseEnv where
  parseSetComputeUnitLimitOk := fun _ => true
  parseSetComputeUnitPrice := fun _ => some 1
  parseTransferCheckedToken := fun _ => some ⟨"AUTH1", "MINT1", "DEST1", 10⟩
  parseTransferChecked2022 := fun _ => some ⟨"AUTH1", "MINT1", "DEST1", 10⟩
  findAssociatedTokenPda := fun _ _ _ => some "DEST1"

/-- Signer controlling one address, with all operations succeeding. -/
def okSigner : SignerEnv where
  addresses := ["FEEPAYER1"]
  signTransaction := fun _ _ _ => .ok "signedtx"
  simulateTransaction := fun _ _ => .ok ()
  sendTransaction := fun _ _ => .ok "sig1"
  confirmTransaction := fun _ _ => .ok ()

/-- Signer whose simulation throws `Error("boom")`. -/
def simFailSigner : SignerEnv :=
  { okSigner with simulateTransaction := fun _ _ => .error ⟨true, "boom"⟩ }

/-- Decode environment that decodes every payload and decompiles it to the
given instruction list, resolving the payer `PAYER1`. -/
def fixtureDecodeEnv (instrs : List Instruction) : DecodeEnv where
  decodeTransaction := fun _ => some ⟨"tx"⟩
  decompileInstructions := fun _ => .ok instrs
  getTokenPayer := fun _ => .ok (some "PAYER1")

/-- Decode environment whose decompilation throws. -/
def throwingDecodeEnv : DecodeEnv where
  decodeTransaction := fun _ => some ⟨"tx"⟩
  decompileInstructions := fun _ => .error ⟨true, "decompile boom"⟩
  getTokenPayer := fun _ => .ok (some "PAYER1")

/-- A payload for the `exact` scheme on a test network. -/
def fixturePayload : PaymentPayload := ⟨"exact", "solana:testnet", "rawtx"⟩

/-- Requirements matching `fixturePayload` and `fixtureParseEnv`: asset
`MINT1`, amount 10, fee payer the signer's address. -/
def fixtureReqs : PaymentRequirements :=
  ⟨"exact", "solana:testnet", "MINT1", "OWNER1", 10, some "FEEPAYER1"⟩

/-- A well-formed compute-limit instruction (discriminator byte 2). -/
def fixtureIx0 : Instruction :=
  ⟨COMPUTE_BUDGET_PROGRAM_ADDRESS, none, some [2, 0, 0, 0, 0]⟩

/-- A well-formed compute-price instruction (discriminator byte 3). -/
def fixtureIx1 : Instruction :=
  ⟨COMPUTE_BUDGET_PROGRAM_ADDRESS, none, some [3, 1, 0, 0, 0, 0, 0, 0, 0]⟩

/-- A token-program transfer instruction whose accounts do not contain the
fee payer. -/
def fixtureIx2 : Instruction :=
  ⟨TOKEN_PROGRAM_ADDRESS, some ["SRC1", "MINT1", "DEST1", "AUTH1"], some [12]⟩

/-- The canonical three-instruction list accepted by the default policy. -/
def fixtureInstrs : List Instruction := [fixtureIx0, fixtureIx1, fixtureIx2]

/-- A scheme over the given signer with the default (empty) verification
configuration. -/
def fixtureScheme (s : SignerEnv) : ExactSvmScheme := ⟨s, {}⟩

/-! ## Further helper lemmas -/

/-- Fewer than three instructions short-circuit `validateInstructions` with
the "too few" reason. -/
theorem validateInstructions_too_few (penv : ParseEnv) (cfg : SvmVerificationConfig)
    (instrs : List Instruction) (signers : List String) (fp : String)
    (hlen : instrs.length < 3) :
    validateInstructions penv cfg instrs signers fp
    = ⟨false, some "invalid_exact_svm_payload_transaction_instructions_length_too_few", 2⟩ := by
  simp only [validateInstructions]
  rw [if_pos hlen]

/-- An invalid instruction-validation result makes `postPayerStage` reject
with that result's reason and the resolved payer. -/
theorem postPayerStage_invalid (penv : ParseEnv) (scheme : ExactSvmScheme)
    (reqs : PaymentRequirements) (instrs : List Instruction) (fp payer r : String)
    (h : validateInstructions penv scheme.verificationConfig instrs
      scheme.signer.addresses fp = ⟨false, some r, 2⟩) :
    postPayerStage penv scheme reqs instrs fp payer = .rejected r payer := by
  simp only [postPayerStage, h]
  simp

/-! ## C3 -/

/-- C3: with every earlier requirement gate passing (scheme and network
match, a managed non-empty fee payer, successful decode, decompilation and
payer resolution), a decompiled instruction list with fewer than 3 entries —
of arbitrary content — makes `verify` reject with reason
`invalid_exact_svm_payload_transaction_instructions_length_too_few`. -/
theorem verify_too_few_instructions (penv : ParseEnv) (denv : DecodeEnv)
    (scheme : ExactSvmScheme) (payload : PaymentPayload) (reqs : PaymentRequirements)
    (fp : String) (tx : SvmTransaction) (instrs : List Instruction) (payer : String)
    (hs1 : payload.acceptedScheme = "exact") (hs2 : reqs.scheme = "exact")
    (hn : payload.acceptedNetwork = reqs.network)
    (hfp : reqs.extraFeePayer = some fp) (hfpne : fp ≠ "")
    (hmanaged : scheme.signer.addresses.contains fp = true)
    (hdec : denv.decodeTransaction payload.transaction = some tx)
    (hinstr : denv.decompileInstructions tx = .ok instrs)
    (hpayer : denv.getTokenPayer tx = .ok (some payer))
    (hlen : instrs.length < 3) :
    verify penv denv scheme payload reqs
    = (.ok ⟨false,
        some "invalid_exact_svm_payload_transaction_instructions_length_too_few", payer⟩,
        []) := by
  apply verify_of_core_rejected
  rw [verifyCore_eq_of_gates penv denv scheme payload reqs fp tx instrs payer
    hs1 hs2 hn hfp hfpne hmanaged hdec hinstr hpayer]
  exact postPayerStage_invalid penv scheme reqs instrs fp payer _
    (validateInstructions_too_few penv scheme.verificationConfig instrs
      scheme.signer.addresses fp hlen)

/-- Witness for C3: a two-instruction transaction is rejected as "too few"
with the resolved payer. -/
theorem verify_too_few_instructions_witness :
    verify fixtureParseEnv (fixtureDecodeEnv [fixtureIx0, fixtureIx1])
      (fixtureScheme okSigner) fixturePayload fixtureReqs
    = (.ok ⟨false,
        some "invalid_exact_svm_payload_transaction_instructions_length_too_few", "PAYER1"⟩,
        []) :=
  verify_too_few_instructions fixtureParseEnv (fixtureDecodeEnv [fixtureIx0, fixtureIx1])
    (fixtureScheme okSigner) fixturePayload fixtureReqs "FEEPAYER1" ⟨"tx"⟩
    [fixtureIx0, fixtureIx1] "PAYER1" rfl rfl rfl rfl (by decide) rfl rfl rfl rfl
    (by decide)

/-! ## C5 -/

/-- An instruction whose account list contains the fee payer address of
`fixtureReqs`. -/
def feePayerIx : Instruction := ⟨TOKEN_PROGRAM_ADDRESS, some ["FEEPAYER1"], none⟩

/-- A transfer-position instruction whose account list contains the fee
payer address of `fixtureReqs`. -/
def feePayerIx2 : Instruction :=
  ⟨TOKEN_PROGRAM_ADDRESS, some ["FEEPAYER1", "MINT1"], some [12]⟩

/-- Counterexample to C5: with the default policy
(`requireFeePayerNotInInstructions` enabled) and the fee payer present in an
instruction's account list, `verify` on a one-instruction transaction
rejects with the "too few" reason — the count gates run before the
fee-payer scan — not with
`invalid_exact_svm_payload_fee_payer_in_instruction_accounts` as the claim
states for any index. -/
theorem feePayer_in_accounts_masked_by_too_few :
    (mergeConfig (fixtureScheme okSigner).verificationConfig).requireFeePayerNotInInstructions
      = true
    ∧ instructionIncludesAccount feePayerIx "FEEPAYER1" = true
    ∧ verify fixtureParseEnv (fixtureDecodeEnv [feePayerIx]) (fixtureScheme okSigner)
        fixturePayload fixtureReqs
      = (.ok ⟨false,
          some "invalid_exact_svm_payload_transaction_instructions_length_too_few",
          "PAYER1"⟩, [])
    ∧ "invalid_exact_svm_payload_transaction_instructions_length_too_few"
      ≠ "invalid_exact_svm_payload_fee_payer_in_instruction_accounts" :=
  ⟨rfl, rfl, rfl, by decide⟩

/-- When the instruction-count gates pass, a fee payer occurring in any
instruction's account list makes `validateInstructions` reject with the
fee-payer-in-accounts reason, independent of the index. -/
theorem validateInstructions_feePayer_in_accounts (penv : ParseEnv)
    (cfg : SvmVerificationConfig) (instrs : List Instruction)
    (signers : List String) (fp : String)
    (hmin : 3 ≤ instrs.length)
    (hmax : instrs.length ≤ (mergeConfig cfg).maxInstructionCount)
    (hreq : (mergeConfig cfg).requireFeePayerNotInInstructions = true)
    (i : Nat) (hi : i < instrs.length)
    (hacc : instructionIncludesAccount (instrs.getD i default) fp = true) :
    validateInstructions penv cfg instrs signers fp
    = ⟨false, some "invalid_exact_svm_payload_fee_payer_in_instruction_accounts", 2⟩ := by
  simp only [validateInstructions]
  rw [if_neg (by omega), if_neg (by omega), if_pos]
  refine ⟨hreq, List.any_eq_true.mpr ⟨instrs.getD i default, ?_, hacc⟩⟩
  rw [List.getD_eq_getElem instrs default hi]
  exact List.getElem_mem hi

/-- C5 as amended: when the merged policy has
`requireFeePayerNotInInstructions` enabled, the earlier gates pass AND the
instruction count is within `[3, maxInstructionCount]` (the count gates run
first), a fee payer appearing in the account list of the instruction at any
index `i` makes `verify` reject with reason
`invalid_exact_svm_payload_fee_payer_in_instruction_accounts`, independent
of which instruction contains it. -/
theorem verify_feePayer_in_accounts (penv : ParseEnv) (denv : DecodeEnv)
    (scheme : ExactSvmScheme) (payload : PaymentPayload) (reqs : PaymentRequirements)
    (fp : String) (tx : SvmTransaction) (instrs : List Instruction) (payer : String)
    (hs1 : payload.acceptedScheme = "exact") (hs2 : reqs.scheme = "exact")
    (hn : payload.acceptedNetwork = reqs.network)
    (hfp : reqs.extraFeePayer = some fp) (hfpne : fp ≠ "")
    (hmanaged : scheme.signer.addresses.contains fp = true)
    (hdec : denv.decodeTransaction payload.transaction = some tx)
    (hinstr : denv.decompileInstructions tx = .ok instrs)
    (hpayer : denv.getTokenPayer tx = .ok (some payer))
    (hmin : 3 ≤ instrs.length)
    (hmax : instrs.length ≤ (mergeConfig scheme.verificationConfig).maxInstructionCount)
    (hreq : (mergeConfig scheme.verificationConfig).requireFeePayerNotInInstructions = true)
    (i : Nat) (hi : i < instrs.length)
    (hacc : instructionIncludesAccount (instrs.getD i default) fp = true) :
    verify penv denv scheme payload reqs
    = (.ok ⟨false,
        some "invalid_exact_svm_payload_fee_payer_in_instruction_accounts", payer⟩, []) := by
  apply verify_of_core_rejected
  rw [verifyCore_eq_of_gates penv denv scheme payload reqs fp tx instrs payer
    hs1 hs2 hn hfp hfpne hmanaged hdec hinstr hpayer]
  exact postPayerStage_invalid penv scheme reqs instrs fp payer _
    (validateInstructions_feePayer_in_accounts penv scheme.verificationConfig instrs
      scheme.signer.addresses fp hmin hmax hreq i hi hacc)

/-- Witness for C5 (amended): a three-instruction transaction whose transfer
instruction lists the fee payer is rejected with the fee-payer-in-accounts
reason. -/
theorem verify_feePayer_in_accounts_witness :
    verify fixtureParseEnv (fixtureDecodeEnv [fixtureIx0, fixtureIx1, feePayerIx2])
      (fixtureScheme okSigner) fixturePayload fixtureReqs
    = (.ok ⟨false,
        some "invalid_exact_svm_payload_fee_payer_in_instruction_accounts", "PAYER1"⟩, []) :=
  verify_feePayer_in_accounts fixtureParseEnv
    (fixtureDecodeEnv [fixtureIx0, fixtureIx1, feePayerIx2]) (fixtureScheme okSigner)
    fixturePayload fixtureReqs "FEEPAYER1" ⟨"tx"⟩ [fixtureIx0, fixtureIx1, feePayerIx2]
    "PAYER1" rfl rfl rfl rfl (by decide) rfl rfl rfl rfl (by decide) (by decide)
    (by decide) 2 (by decide) rfl

/-! ## C1 -/

/-- Counterexample to C1: on an input where `verify` fails at the simulation
gate (reason `transaction_simulation_failed: boom`), `settle` returns the
identical reason, payer and empty transaction — but a `signTransaction` call
on the signer does occur during settlement (performed by the `verify`
precondition), contradicting the claim that no such call is performed. -/
theorem settle_sign_call_on_simulation_failure :
    (verify fixtureParseEnv (fixtureDecodeEnv fixtureInstrs) (fixtureScheme simFailSigner)
      fixturePayload fixtureReqs).1
      = .ok ⟨false, some "transaction_simulation_failed: boom", "PAYER1"⟩
    ∧ (settle fixtureParseEnv (fixtureDecodeEnv fixtureInstrs) (fixtureScheme simFailSigner)
        fixturePayload fixtureReqs).1
      = .ok ⟨false, "", "solana:testnet", some "transaction_simulation_failed: boom", "PAYER1"⟩
    ∧ SignerCall.sign
      ∈ (settle fixtureParseEnv (fixtureDecodeEnv fixtureInstrs)
          (fixtureScheme simFailSigner) fixturePayload fixtureReqs).2 :=
  ⟨rfl, rfl, by decide⟩

/-- C1 as amended: whenever `verify` returns `isValid=false` with reason `r`
and payer `p`, `settle` returns `success=false`, `errorReason = r`,
`payer = p` and `transaction = ""`, and performs no signer call beyond those
the `verify` precondition itself made — in particular no `sendTransaction`
and no `confirmTransaction` call ever occurs (`verify` may itself have
called `signTransaction`/`simulateTransaction` when the failure occurred at
the simulation gate). -/
theorem settle_after_failed_verify (penv : ParseEnv) (denv : DecodeEnv)
    (scheme : ExactSvmScheme) (payload : PaymentPayload) (reqs : PaymentRequirements)
    (r p : String) (tr : List SignerCall)
    (h : verify penv denv scheme payload reqs = (.ok ⟨false, some r, p⟩, tr)) :
    settle penv denv scheme payload reqs
      = (.ok ⟨false, "", payload.acceptedNetwork, some r, p⟩, tr)
    ∧ SignerCall.send ∉ tr ∧ SignerCall.confirm ∉ tr := by
  refine ⟨?_, ?_, ?_⟩
  · simp only [settle, h]
    have hp : (if p = "" then "" else p) = p := by
      by_cases hp : p = "" <;> simp [hp]
    simp [hp]
  all_goals
    have ht := verify_trace_cases penv denv scheme payload reqs
    rw [h] at ht
    simp only at ht
    rcases ht with ht | ht | ht <;> subst ht <;> decide

/-- Witness for C1 (amended): on the simulation-failure input, `settle`
relays the failure and its trace adds nothing beyond verify's
sign-and-simulate calls; no send or confirm occurs. -/
theorem settle_after_failed_verify_witness :
    settle fixtureParseEnv (fixtureDecodeEnv fixtureInstrs) (fixtureScheme simFailSigner)
      fixturePayload fixtureReqs
      = (.ok ⟨false, "", "solana:testnet", some "transaction_simulation_failed: boom",
          "PAYER1"⟩, [SignerCall.sign, SignerCall.simulate])
    ∧ SignerCall.send ∉ [SignerCall.sign, SignerCall.simulate]
    ∧ SignerCall.confirm ∉ [SignerCall.sign, SignerCall.simulate] :=
  settle_after_failed_verify fixtureParseEnv (fixtureDecodeEnv fixtureInstrs)
    (fixtureScheme simFailSigner) fixturePayload fixtureReqs
    "transaction_simulation_failed: boom" "PAYER1" [SignerCall.sign, SignerCall.simulate]
    rfl

/-! ## C2 -/

/-- Counterexample to C2: all requirement gates pass and the transaction
decodes, but message decompilation throws; `verify` does not catch this
(only `decodeTransactionFromPayload` is inside a `try`), so both `verify`
and `settle` raise the exception past the public contract instead of
returning a structured outcome. -/
theorem verify_throws_on_decompile_failure :
    verify fixtureParseEnv throwingDecodeEnv (fixtureScheme okSigner) fixturePayload
      fixtureReqs = (.error ⟨true, "decompile boom"⟩, [])
    ∧ settle fixtureParseEnv throwingDecodeEnv (fixtureScheme okSigner) fixturePayload
      fixtureReqs = (.error ⟨true, "decompile boom"⟩, []) :=
  ⟨rfl, rfl⟩

/-- If message decompilation and payer extraction never throw, `verifyCore`
never produces an uncaught exception. -/
theorem verifyCore_not_thrown (penv : ParseEnv) (denv : DecodeEnv)
    (scheme : ExactSvmScheme) (payload : PaymentPayload) (reqs : PaymentRequirements)
    (h1 : ∀ tx, ∃ l, denv.decompileInstructions tx = Except.ok l)
    (h2 : ∀ tx, ∃ po, denv.getTokenPayer tx = Except.ok po)
    (e : TSError) : verifyCore penv denv scheme payload reqs ≠ .thrown e := by
  intro h
  unfold verifyCore at h
  by_cases c1 : payload.acceptedScheme ≠ "exact" ∨ reqs.scheme ≠ "exact"
  · rw [if_pos c1] at h; cases h
  rw [if_neg c1] at h
  by_cases c2 : payload.acceptedNetwork ≠ reqs.network
  · rw [if_pos c2] at h; cases h
  rw [if_neg c2] at h
  cases hfp : reqs.extraFeePayer with
  | none => simp only [hfp] at h; cases h
  | some fp =>
    simp only [hfp] at h
    by_cases c3 : fp = ""
    · rw [if_pos c3] at h; cases h
    rw [if_neg c3] at h
    by_cases c4 : ¬ scheme.signer.addresses.contains fp
    · rw [if_pos c4] at h; cases h
    rw [if_neg c4] at h
    cases hdec : denv.decodeTransaction payload.transaction with
    | none => simp only [hdec] at h; cases h
    | some tx =>
      simp only [hdec] at h
      obtain ⟨l, hl⟩ := h1 tx
      simp only [hl] at h
      obtain ⟨po, hpo⟩ := h2 tx
      simp only [hpo] at h
      cases po with
      | none => cases h
      | some payer => exact postPayerStage_not_thrown penv scheme reqs l fp payer e h

/-- C2 as amended: `verify` and `settle` always terminate with a structured
`VerifyResponse` / `SettleResponse` — provided message decompilation and
payer extraction do not throw.  (Transaction decode failure is caught, but
the decompilation/instruction-listing/payer-extraction region of `verify`
is not inside a `try`, so an exception there propagates past the public
contract, contrary to the claim; see the counterexample.) -/
theorem verify_settle_total_of_decode_env_total (penv : ParseEnv) (denv : DecodeEnv)
    (scheme : ExactSvmScheme) (payload : PaymentPayload) (reqs : PaymentRequirements)
    (h1 : ∀ tx, ∃ l, denv.decompileInstructions tx = Except.ok l)
    (h2 : ∀ tx, ∃ po, denv.getTokenPayer tx = Except.ok po) :
    (∃ resp, (verify penv denv scheme payload reqs).1 = .ok resp)
    ∧ (∃ sres, (settle penv denv scheme payload reqs).1 = .ok sres) := by
  have hok : ∃ resp tr, verify penv denv scheme payload reqs = (.ok resp, tr) := by
    rcases hc : verifyCore penv denv scheme payload reqs with ⟨e⟩ | ⟨r, p⟩ | ⟨fp, p⟩
    · exact absurd hc (verifyCore_not_thrown penv denv scheme payload reqs h1 h2 e)
    · exact ⟨⟨false, some r, p⟩, [], by simp [verify, hc]⟩
    · simp only [verify, hc]
      rcases hs : scheme.signer.signTransaction payload.transaction fp reqs.network with e | stx
      · simp only [hs]; exact ⟨_, _, rfl⟩
      · simp only [hs]
        rcases hsim : scheme.signer.simulateTransaction stx reqs.network with e | u
        · simp only [hsim]; exact ⟨_, _, rfl⟩
        · simp only [hsim]; exact ⟨_, _, rfl⟩
  obtain ⟨resp, tr, hvr⟩ := hok
  refine ⟨⟨resp, by rw [hvr]⟩, ?_⟩
  simp only [settle, hvr]
  by_cases hiv : resp.isValid = false
  · rw [if_pos hiv]; exact ⟨_, rfl⟩
  · rw [if_neg hiv]
    rcases hs : scheme.signer.signTransaction payload.transaction
        (reqs.extraFeePayer.getD "") reqs.network with e | stx
    · exact ⟨_, rfl⟩
    · simp only [hs]
      rcases hsend : scheme.signer.sendTransaction stx reqs.network with e | sig
      · exact ⟨_, rfl⟩
      · simp only [hsend]
        rcases hconf : scheme.signer.confirmTransaction sig reqs.network with e | u
        · exact ⟨_, rfl⟩
        · exact ⟨_, rfl⟩

/-- Witness for C2 (amended): with a decode environment that never throws,
both `verify` and `settle` return structured outcomes on the fixture
input. -/
theorem verify_settle_total_of_decode_env_total_witness :
    (∃ resp, (verify fixtureParseEnv (fixtureDecodeEnv fixtureInstrs)
      (fixtureScheme okSigner) fixturePayload fixtureReqs).1 = .ok resp)
    ∧ (∃ sres, (settle fixtureParseEnv (fixtureDecodeEnv fixtureInstrs)
        (fixtureScheme okSigner) fixturePayload fixtureReqs).1 = .ok sres) :=
  verify_settle_total_of_decode_env_total fixtureParseEnv (fixtureDecodeEnv fixtureInstrs)
    (fixtureScheme okSigner) fixturePayload fixtureReqs
    (fun _ => ⟨fixtureInstrs, rfl⟩) (fun _ => ⟨some "PAYER1", rfl⟩)

/-! ## C4 -/

/-- The additional-instruction loop applied to an appended list first
processes the prefix; when the prefix raises no failure, it continues on the
suffix at the shifted index. -/
theorem validateAdditionalFrom_append (cfg : MergedVerificationConfig)
    (signers : List String) (fp : String) :
    ∀ (pre l : List Instruction) (i : Nat),
    validateAdditionalFrom cfg signers fp pre i = none →
    validateAdditionalFrom cfg signers fp (pre ++ l) i
      = validateAdditionalFrom cfg signers fp l (i + pre.length) := by
  intro pre
  induction pre with
  | nil => intro l i _; simp [validateAdditionalFrom]
  | cons ix rest ih =>
    intro l i h
    simp only [validateAdditionalFrom, List.cons_append] at h ⊢
    cases hchk : checkAdditionalInstruction cfg signers fp ix i with
    | some r => rw [hchk] at h; simp at h
    | none =>
      rw [hchk] at h
      replace h : validateAdditionalFrom cfg signers fp rest (i + 1) = none := h
      show validateAdditionalFrom cfg signers fp (rest ++ l) (i + 1)
          = validateAdditionalFrom cfg signers fp l (i + (ix :: rest).length)
      rw [ih l (i + 1) h]
      have harith : i + 1 + rest.length = i + (ix :: rest).length := by
        simp only [List.length_cons]; omega
      rw [harith]

/-- C4: precedence of the additional-instruction policy chain.
(a) An additional instruction whose program is block-listed is rejected with
the blocked-program reason for that program whenever the preceding
additional instructions pass — unconditionally, hence in particular even when
a custom-verifier rule also matches the program.
(b) When an unblocked program matches a custom-verifier rule, the check of
that instruction is independent of `allowedProgramIds`: the allow-list is
skipped entirely.
(c) When no custom rule matches and the allow-list is empty, any unblocked
program is permitted. -/
theorem additional_instruction_policy_precedence :
    (∀ (cfg : MergedVerificationConfig) (signers : List String) (fp : String)
      (pre rest : List Instruction) (ix : Instruction),
      validateAdditionalFrom cfg signers fp pre 3 = none →
      cfg.blockedProgramIds.contains ix.programAddress = true →
      validateAdditionalFrom cfg signers fp (pre ++ ix :: rest) 3
        = some ("invalid_exact_svm_payload_blocked_program_" ++ ix.programAddress))
    ∧ (∀ (cfg1 cfg2 : MergedVerificationConfig) (signers : List String) (fp : String)
      (ix : Instruction) (i : Nat),
      cfg1.blockedProgramIds = cfg2.blockedProgramIds →
      cfg1.customVerifiers = cfg2.customVerifiers →
      cfg1.blockedProgramIds.contains ix.programAddress = false →
      (cfg1.customVerifiers.find?
        (fun v => v.programIds.contains ix.programAddress)).isSome = true →
      checkAdditionalInstruction cfg1 signers fp ix i
        = checkAdditionalInstruction cfg2 signers fp ix i)
    ∧ (∀ (cfg : MergedVerificationConfig) (signers : List String) (fp : String)
      (ix : Instruction) (i : Nat),
      cfg.blockedProgramIds.contains ix.programAddress = false →
      cfg.customVerifiers.find? (fun v => v.programIds.contains ix.programAddress) = none →
      cfg.allowedProgramIds = [] →
      checkAdditionalInstruction cfg signers fp ix i = none) := by
  refine ⟨?_, ?_, ?_⟩
  · intro cfg signers fp pre rest ix hpre hblocked
    rw [validateAdditionalFrom_append cfg signers fp pre (ix :: rest) 3 hpre]
    have hmem : ix.programAddress ∈ cfg.blockedProgramIds := by simpa using hblocked
    simp [validateAdditionalFrom, checkAdditionalInstruction, hmem]
  · intro cfg1 cfg2 signers fp ix i hblk hcv hblocked hfind
    obtain ⟨rule, hrule⟩ := Option.isSome_iff_exists.mp hfind
    simp only [checkAdditionalInstruction, ← hblk, ← hcv, hrule]
  · intro cfg signers fp ix i hblocked hfind hallowed
    simp only [checkAdditionalInstruction, hfind, hallowed]
    rw [if_neg (by simpa using hblocked)]
    simp

/-- An additional instruction that is both block-listed and matched by a
custom-verifier rule. -/
def blockedIx : Instruction := ⟨"BLKPROG", none, none⟩

/-- Merged policy block-listing `BLKPROG` while also carrying a custom rule
for it. -/
def blockCustomCfg : MergedVerificationConfig :=
  ⟨4, true, [], ["BLKPROG"], [⟨["BLKPROG"], none, none⟩], true⟩

/-- An additional instruction matched by a custom rule of `customCfgA`. -/
def customIx : Instruction := ⟨"CUSTPROG", none, none⟩

/-- Merged policy with a custom rule for `CUSTPROG`, nothing blocked, and a
non-empty allow-list not containing `CUSTPROG`. -/
def customCfgA : MergedVerificationConfig :=
  ⟨4, true, ["OTHER"], [], [⟨["CUSTPROG"], none, none⟩], true⟩

/-- Same as `customCfgA` but with an empty allow-list. -/
def customCfgB : MergedVerificationConfig :=
  ⟨4, true, [], [], [⟨["CUSTPROG"], none, none⟩], true⟩

/-- Merged policy with no custom rules, nothing blocked and an empty
allow-list. -/
def permissiveCfg : MergedVerificationConfig := ⟨4, true, [], [], [], true⟩

/-- Witness for C4: (a) a blocked program matched by a custom rule is
rejected with the blocked reason; (b) with a custom-rule match the check is
the same under two different allow-lists; (c) an unmatched, unblocked
program passes under the empty allow-list. -/
theorem additional_instruction_policy_precedence_witness :
    validateAdditionalFrom blockCustomCfg ["FEEPAYER1"] "FEEPAYER1" ([] ++ blockedIx :: []) 3
      = some "invalid_exact_svm_payload_blocked_program_BLKPROG"
    ∧ checkAdditionalInstruction customCfgA ["FEEPAYER1"] "FEEPAYER1" customIx 3
      = checkAdditionalInstruction customCfgB ["FEEPAYER1"] "FEEPAYER1" customIx 3
    ∧ checkAdditionalInstruction permissiveCfg ["FEEPAYER1"] "FEEPAYER1"
        ⟨"ANYPROG", none, none⟩ 3 = none :=
  ⟨additional_instruction_policy_precedence.1 blockCustomCfg ["FEEPAYER1"] "FEEPAYER1"
      [] [] blockedIx rfl rfl,
    additional_instruction_policy_precedence.2.1 customCfgA customCfgB ["FEEPAYER1"]
      "FEEPAYER1" customIx 3 rfl rfl rfl rfl,
    additional_instruction_policy_precedence.2.2 permissiveCfg ["FEEPAYER1"] "FEEPAYER1"
      ⟨"ANYPROG", none, none⟩ 3 rfl rfl rfl⟩

/-! ## C7 -/

/-- C7: validation of the compute-price instruction (instruction 1).
(1) A wrong program address, or a missing/wrong first data byte (the
discriminator must be 3), rejects with the plain compute-price reason.
(2) A parse failure rejects with the plain compute-price reason.
(3) With program, discriminator and parse all good, the rejection carries
the `_too_high` suffix exactly when the parsed microlamport price strictly
exceeds the fixed ceiling. -/
theorem verifyComputePriceInstruction_spec :
    (∀ (penv : ParseEnv) (ix : Instruction),
      (ix.programAddress ≠ COMPUTE_BUDGET_PROGRAM_ADDRESS
        ∨ ix.data.bind List.head? ≠ some 3) →
      verifyComputePriceInstruction penv ix
        = .error "invalid_exact_svm_payload_transaction_instructions_compute_price_instruction")
    ∧ (∀ (penv : ParseEnv) (ix : Instruction),
      ix.programAddress = COMPUTE_BUDGET_PROGRAM_ADDRESS →
      ix.data.bind List.head? = some 3 →
      penv.parseSetComputeUnitPrice ix = none →
      verifyComputePriceInstruction penv ix
        = .error "invalid_exact_svm_payload_transaction_instructions_compute_price_instruction")
    ∧ (∀ (penv : ParseEnv) (ix : Instruction) (price : Nat),
      ix.programAddress = COMPUTE_BUDGET_PROGRAM_ADDRESS →
      ix.data.bind List.head? = some 3 →
      penv.parseSetComputeUnitPrice ix = some price →
      (verifyComputePriceInstruction penv ix
        = .error
          "invalid_exact_svm_payload_transaction_instructions_compute_price_instruction_too_high"
        ↔ MAX_COMPUTE_UNIT_PRICE_MICROLAMPORTS < price)) := by
  refine ⟨?_, ?_, ?_⟩
  · intro penv ix h
    unfold verifyComputePriceInstruction
    by_cases hp : ix.programAddress ≠ COMPUTE_BUDGET_PROGRAM_ADDRESS
    · rw [if_pos hp]
    · rw [if_neg hp]
      rcases h with h | h
      · exact absurd h hp
      · cases hd : ix.data with
        | none => simp only [hd]
        | some d =>
            simp only [hd]
            rw [hd] at h
            simp only [Option.bind] at h
            rw [if_pos h]
  · intro penv ix hprog hdisc hparse
    unfold verifyComputePriceInstruction
    rw [if_neg (by simp [hprog])]
    cases hd : ix.data with
    | none => simp [hd] at hdisc
    | some d =>
        simp only [hd]
        rw [hd] at hdisc
        simp only [Option.bind] at hdisc
        rw [if_neg (by simp [hdisc])]
        simp only [hparse]
  · intro penv ix price hprog hdisc hparse
    unfold verifyComputePriceInstruction
    rw [if_neg (by simp [hprog])]
    cases hd : ix.data with
    | none => simp [hd] at hdisc
    | some d =>
        simp only [hd]
        rw [hd] at hdisc
        simp only [Option.bind] at hdisc
        rw [if_neg (by simp [hdisc])]
        simp only [hparse]
        by_cases hprice : MAX_COMPUTE_UNIT_PRICE_MICROLAMPORTS < price
        · rw [if_pos hprice]; simp [hprice]
        · rw [if_neg hprice]; simp [hprice]

/-- Parse environment whose compute-price parse throws. -/
def failPriceParseEnv : ParseEnv :=
  { fixtureParseEnv with parseSetComputeUnitPrice := fun _ => none }

/-- Parse environment whose compute-price parse yields one microlamport more
than the ceiling. -/
def highPriceParseEnv : ParseEnv :=
  { fixtureParseEnv with
      parseSetComputeUnitPrice := fun _ => some (MAX_COMPUTE_UNIT_PRICE_MICROLAMPORTS + 1) }

/-- Witness for C7: a wrong discriminator (instruction 0 carries byte 2), a
parse failure, and an over-ceiling price at the well-formed compute-price
instruction. -/
theorem verifyComputePriceInstruction_spec_witness :
    verifyComputePriceInstruction fixtureParseEnv fixtureIx0
      = .error "invalid_exact_svm_payload_transaction_instructions_compute_price_instruction"
    ∧ verifyComputePriceInstruction failPriceParseEnv fixtureIx1
      = .error "invalid_exact_svm_payload_transaction_instructions_compute_price_instruction"
    ∧ (verifyComputePriceInstruction highPriceParseEnv fixtureIx1
        = .error
          "invalid_exact_svm_payload_transaction_instructions_compute_price_instruction_too_high"
      ↔ MAX_COMPUTE_UNIT_PRICE_MICROLAMPORTS < MAX_COMPUTE_UNIT_PRICE_MICROLAMPORTS + 1) :=
  ⟨verifyComputePriceInstruction_spec.1 fixtureParseEnv fixtureIx0 (Or.inr (by decide)),
    verifyComputePriceInstruction_spec.2.1 failPriceParseEnv fixtureIx1 rfl rfl rfl,
    verifyComputePriceInstruction_spec.2.2 highPriceParseEnv fixtureIx1
      (MAX_COMPUTE_UNIT_PRICE_MICROLAMPORTS + 1) rfl rfl rfl⟩

/-! ## C8 -/

/-- C8: once the payer is resolved from the transfer instruction's source
account (`getTokenPayer` yields a payer) and the preceding gates have
passed, every structured verdict `verify` returns — every later failure
(instruction policy, transfer verification, signing/simulation) as well as
success — carries that resolved payer in its `payer` field. -/
theorem verify_preserves_resolved_payer (penv : ParseEnv) (denv : DecodeEnv)
    (scheme : ExactSvmScheme) (payload : PaymentPayload) (reqs : PaymentRequirements)
    (fp : String) (tx : SvmTransaction) (instrs : List Instruction) (payer : String)
    (hs1 : payload.acceptedScheme = "exact") (hs2 : reqs.scheme = "exact")
    (hn : payload.acceptedNetwork = reqs.network)
    (hfp : reqs.extraFeePayer = some fp) (hfpne : fp ≠ "")
    (hmanaged : scheme.signer.addresses.contains fp = true)
    (hdec : denv.decodeTransaction payload.transaction = some tx)
    (hinstr : denv.decompileInstructions tx = .ok instrs)
    (hpayer : denv.getTokenPayer tx = .ok (some payer)) :
    ∀ resp : VerifyResponse,
      (verify penv denv scheme payload reqs).1 = .ok resp → resp.payer = payer := by
  intro resp hresp
  have hcore := verifyCore_eq_of_gates penv denv scheme payload reqs fp tx instrs payer
    hs1 hs2 hn hfp hfpne hmanaged hdec hinstr hpayer
  rcases postPayerStage_payer penv scheme reqs instrs fp payer with ⟨e, hps⟩ | ⟨r, hps⟩ | hps
  · exact absurd hps (postPayerStage_not_thrown penv scheme reqs instrs fp payer e)
  · rw [hps] at hcore
    simp only [verify, hcore, Except.ok.injEq] at hresp
    subst hresp
    rfl
  · rw [hps] at hcore
    simp only [verify, hcore] at hresp
    rcases hsgn : scheme.signer.signTransaction payload.transaction fp reqs.network with e | stx
    · simp only [hsgn, Except.ok.injEq] at hresp
      subst hresp
      rfl
    · simp only [hsgn] at hresp
      rcases hsim : scheme.signer.simulateTransaction stx reqs.network with e | u
      · simp only [hsim, Except.ok.injEq] at hresp
        subst hresp
        rfl
      · simp only [hsim, Except.ok.injEq] at hresp
        subst hresp
        rfl

/-- Witness for C8: on the simulation-failure input the returned failure
verdict carries the resolved payer `PAYER1`. -/
theorem verify_preserves_resolved_payer_witness :
    VerifyResponse.payer
      ⟨false, some "transaction_simulation_failed: boom", "PAYER1"⟩ = "PAYER1" :=
  verify_preserves_resolved_payer fixtureParseEnv (fixtureDecodeEnv fixtureInstrs)
    (fixtureScheme simFailSigner) fixturePayload fixtureReqs "FEEPAYER1" ⟨"tx"⟩
    fixtureInstrs "PAYER1" rfl rfl rfl rfl (by decide) rfl rfl rfl rfl
    ⟨false, some "transaction_simulation_failed: boom", "PAYER1"⟩ rfl

/-! ## C6 -/

/-- When instruction validation succeeds and the transfer instruction at
index 2 — under either of the two supported token programs (legacy Token or
Token-2022) — parses with passing authority, mint and destination checks,
`postPayerStage` reduces to the amount comparison.  The parse and
ATA-derivation hypotheses use the same program-address branch the code
uses. -/
theorem postPayerStage_amount (penv : ParseEnv) (scheme : ExactSvmScheme)
    (reqs : PaymentRequirements) (instrs : List Instruction) (fp payer : String)
    (tix : Instruction) (pt : ParsedTransfer) (ata : String)
    (hval : validateInstructions penv scheme.verificationConfig instrs
      scheme.signer.addresses fp = ⟨true, none, 2⟩)
    (hix : instrs[2]? = some tix)
    (hprog : tix.programAddress = TOKEN_PROGRAM_ADDRESS
      ∨ tix.programAddress = TOKEN_2022_PROGRAM_ADDRESS)
    (hparse : (if tix.programAddress = TOKEN_PROGRAM_ADDRESS then
        penv.parseTransferCheckedToken tix
      else penv.parseTransferChecked2022 tix) = some pt)
    (hauth : scheme.signer.addresses.contains pt.authority = false)
    (hmint : pt.mint = reqs.asset)
    (hata : penv.findAssociatedTokenPda reqs.asset reqs.payTo
        (if tix.programAddress = TOKEN_PROGRAM_ADDRESS then TOKEN_PROGRAM_ADDRESS
          else TOKEN_2022_PROGRAM_ADDRESS)
      = some ata)
    (hdest : pt.destination = ata) :
    postPayerStage penv scheme reqs instrs fp payer
      = if pt.amount < reqs.amount then
          .rejected "invalid_exact_svm_payload_amount_insufficient" payer
        else .readyToSign fp payer := by
  have hauth2 : pt.authority ∉ scheme.signer.addresses := by simpa using hauth
  rcases hprog with h | h
  · have hparse2 : penv.parseTransferCheckedToken tix = some pt := by
      simpa [h] using hparse
    have hata2 : penv.findAssociatedTokenPda reqs.asset reqs.payTo TOKEN_PROGRAM_ADDRESS
        = some ata := by
      simpa [h] using hata
    simp [postPayerStage, hval, hix, h, hparse2, hauth2, hmint, hata2, hdest]
  · have hne : TOKEN_2022_PROGRAM_ADDRESS ≠ TOKEN_PROGRAM_ADDRESS := by decide
    have hparse2 : penv.parseTransferChecked2022 tix = some pt := by
      simpa [h, hne] using hparse
    have hata2 : penv.findAssociatedTokenPda reqs.asset reqs.payTo
        TOKEN_2022_PROGRAM_ADDRESS = some ata := by
      simpa [h, hne] using hata
    simp [postPayerStage, hval, hix, h, hne, hparse2, hauth2, hmint, hata2, hdest]

/-- C6: for every successfully parsed transfer instruction — under either
supported token program (legacy Token or Token-2022, the parse branch
selected by the program address as in the code) — with all gates up to and
including the destination check passing,
(1) a transfer amount strictly below the required amount makes `verify`
reject with reason `invalid_exact_svm_payload_amount_insufficient`;
(2) an amount greater than or equal to the requirement passes the amount
check — the verdict is either success or a signing/simulation failure,
never the amount reason;
(3) in particular an amount exactly equal to the requirement yields
`isValid = true` when signing and simulation succeed. -/
theorem verify_amount_insufficient_iff (penv : ParseEnv) (denv : DecodeEnv)
    (scheme : ExactSvmScheme) (payload : PaymentPayload) (reqs : PaymentRequirements)
    (fp : String) (tx : SvmTransaction) (instrs : List Instruction) (payer : String)
    (tix : Instruction) (pt : ParsedTransfer) (ata : String)
    (hs1 : payload.acceptedScheme = "exact") (hs2 : reqs.scheme = "exact")
    (hn : payload.acceptedNetwork = reqs.network)
    (hfp : reqs.extraFeePayer = some fp) (hfpne : fp ≠ "")
    (hmanaged : scheme.signer.addresses.contains fp = true)
    (hdec : denv.decodeTransaction payload.transaction = some tx)
    (hinstr : denv.decompileInstructions tx = .ok instrs)
    (hpayer : denv.getTokenPayer tx = .ok (some payer))
    (hval : validateInstructions penv scheme.verificationConfig instrs
      scheme.signer.addresses fp = ⟨true, none, 2⟩)
    (hix : instrs[2]? = some tix)
    (hprog : tix.programAddress = TOKEN_PROGRAM_ADDRESS
      ∨ tix.programAddress = TOKEN_2022_PROGRAM_ADDRESS)
    (hparse : (if tix.programAddress = TOKEN_PROGRAM_ADDRESS then
        penv.parseTransferCheckedToken tix
      else penv.parseTransferChecked2022 tix) = some pt)
    (hauth : scheme.signer.addresses.contains pt.authority = false)
    (hmint : pt.mint = reqs.asset)
    (hata : penv.findAssociatedTokenPda reqs.asset reqs.payTo
        (if tix.programAddress = TOKEN_PROGRAM_ADDRESS then TOKEN_PROGRAM_ADDRESS
          else TOKEN_2022_PROGRAM_ADDRESS)
      = some ata)
    (hdest : pt.destination = ata) :
    (pt.amount < reqs.amount →
      verify penv denv scheme payload reqs
        = (.ok ⟨false, some "invalid_exact_svm_payload_amount_insufficient", payer⟩, []))
    ∧ (reqs.amount ≤ pt.amount →
      verify penv denv scheme payload reqs
        = (.ok ⟨true, none, payer⟩, [SignerCall.sign, SignerCall.simulate])
      ∨ ∃ m, (verify penv denv scheme payload reqs).1
          = .ok ⟨false, some ("transaction_simulation_failed: " ++ m), payer⟩)
    ∧ (reqs.amount ≤ pt.amount →
      ∀ stx, scheme.signer.signTransaction payload.transaction fp reqs.network = .ok stx →
      scheme.signer.simulateTransaction stx reqs.network = .ok () →
      verify penv denv scheme payload reqs
        = (.ok ⟨true, none, payer⟩, [SignerCall.sign, SignerCall.simulate])) := by
  have hcore := verifyCore_eq_of_gates penv denv scheme payload reqs fp tx instrs payer
    hs1 hs2 hn hfp hfpne hmanaged hdec hinstr hpayer
  have hstage := postPayerStage_amount penv scheme reqs instrs fp payer tix pt ata
    hval hix hprog hparse hauth hmint hata hdest
  refine ⟨?_, ?_, ?_⟩
  · intro hlt
    rw [if_pos hlt] at hstage
    apply verify_of_core_rejected
    rw [hcore]
    exact hstage
  · intro hge
    rw [if_neg (not_lt.mpr hge)] at hstage
    rw [hstage] at hcore
    simp only [verify, hcore]
    rcases hsgn : scheme.signer.signTransaction payload.transaction fp reqs.network with e | stx
    · exact Or.inr ⟨e.message, by simp [hsgn]⟩
    · rcases hsim : scheme.signer.simulateTransaction stx reqs.network with e | u
      · exact Or.inr ⟨e.message, by simp [hsgn, hsim]⟩
      · exact Or.inl (by simp [hsgn, hsim])
  · intro hge stx hsgn hsim
    rw [if_neg (not_lt.mpr hge)] at hstage
    rw [hstage] at hcore
    simp only [verify, hcore, hsgn, hsim]

/-- A Token-2022 transfer instruction whose accounts do not contain the fee
payer. -/
def fixtureIx2022 : Instruction :=
  ⟨TOKEN_2022_PROGRAM_ADDRESS, some ["SRC1", "MINT1", "DEST1", "AUTH1"], some [12]⟩

/-- The three-instruction list whose transfer uses the Token-2022 program. -/
def fixtureInstrs2022 : List Instruction := [fixtureIx0, fixtureIx1, fixtureIx2022]

/-- Witness for C6, exercising both token-program branches: a legacy-Token
transfer of 10 against a requirement of 11 rejects with the amount reason;
the same transfer against a requirement of 10 is accepted; and a Token-2022
transfer of 10 against a requirement of 10 is accepted as well. -/
theorem verify_amount_insufficient_iff_witness :
    verify fixtureParseEnv (fixtureDecodeEnv fixtureInstrs) (fixtureScheme okSigner)
      fixturePayload
      ⟨"exact", "solana:testnet", "MINT1", "OWNER1", 11, some "FEEPAYER1"⟩
      = (.ok ⟨false, some "invalid_exact_svm_payload_amount_insufficient", "PAYER1"⟩, [])
    ∧ verify fixtureParseEnv (fixtureDecodeEnv fixtureInstrs) (fixtureScheme okSigner)
        fixturePayload fixtureReqs
      = (.ok ⟨true, none, "PAYER1"⟩, [SignerCall.sign, SignerCall.simulate])
    ∧ verify fixtureParseEnv (fixtureDecodeEnv fixtureInstrs2022) (fixtureScheme okSigner)
        fixturePayload fixtureReqs
      = (.ok ⟨true, none, "PAYER1"⟩, [SignerCall.sign, SignerCall.simulate]) :=
  ⟨(verify_amount_insufficient_iff fixtureParseEnv (fixtureDecodeEnv fixtureInstrs)
      (fixtureScheme okSigner) fixturePayload
      ⟨"exact", "solana:testnet", "MINT1", "OWNER1", 11, some "FEEPAYER1"⟩ "FEEPAYER1"
      ⟨"tx"⟩ fixtureInstrs "PAYER1" fixtureIx2 ⟨"AUTH1", "MINT1", "DEST1", 10⟩ "DEST1"
      rfl rfl rfl rfl (by decide) rfl rfl rfl rfl rfl rfl (Or.inl rfl) rfl rfl rfl rfl
      rfl).1 (by decide),
    (verify_amount_insufficient_iff fixtureParseEnv (fixtureDecodeEnv fixtureInstrs)
      (fixtureScheme okSigner) fixturePayload fixtureReqs "FEEPAYER1"
      ⟨"tx"⟩ fixtureInstrs "PAYER1" fixtureIx2 ⟨"AUTH1", "MINT1", "DEST1", 10⟩ "DEST1"
      rfl rfl rfl rfl (by decide) rfl rfl rfl rfl rfl rfl (Or.inl rfl) rfl rfl rfl rfl
      rfl).2.2 (by decide) "signedtx" rfl rfl,
    (verify_amount_insufficient_iff fixtureParseEnv (fixtureDecodeEnv fixtureInstrs2022)
      (fixtureScheme okSigner) fixturePayload fixtureReqs "FEEPAYER1"
      ⟨"tx"⟩ fixtureInstrs2022 "PAYER1" fixtureIx2022 ⟨"AUTH1", "MINT1", "DEST1", 10⟩
      "DEST1" rfl rfl rfl rfl (by decide) rfl rfl rfl rfl rfl rfl (Or.inr rfl)
      (by decide) rfl rfl (by decide) rfl).2.2 (by decide) "signedtx" rfl rfl⟩

/-! ## C9 -/

/-- Configuration with a custom verifier for `PROG4` that throws
`new Error("")` — an `Error` instance whose message is the empty string. -/
def emptyMessageVerifierCfg : SvmVerificationConfig where
  maxInstructionCount := some 4
  allowAdditionalInstructions := some true
  customVerifiers := some [⟨["PROG4"], none, some (fun _ _ => .error ⟨true, ""⟩)⟩]

/-- An additional instruction handled by `emptyMessageVerifierCfg`. -/
def ix3prog4 : Instruction := ⟨"PROG4", none, none⟩

/-- Counterexample to C9: a custom verifier throwing an `Error` with empty
message produces an invalid result whose reason is the defined but EMPTY
string `""` — refuting the claim that every invalid verdict carries a
non-empty reason (the `?? "invalid_instructions"` fallback still does not
fire, since `""` is not nullish). -/
theorem validateInstructions_empty_reason_from_custom_verifier :
    validateInstructions fixtureParseEnv emptyMessageVerifierCfg
      [fixtureIx0, fixtureIx1, fixtureIx2, ix3prog4] ["FEEPAYER1"] "FEEPAYER1"
      = ⟨false, some "", 2⟩ := rfl

/-- Every result of `validateInstructions` is either the success literal or
an invalid result whose reason is defined. -/
theorem validateInstructions_shape (penv : ParseEnv) (cfg : SvmVerificationConfig)
    (instrs : List Instruction) (signers : List String) (fp : String) :
    validateInstructions penv cfg instrs signers fp = ⟨true, none, 2⟩
    ∨ ∃ s, validateInstructions penv cfg instrs signers fp = ⟨false, some s, 2⟩ := by
  simp only [validateInstructions]
  repeat' split
  all_goals simp

/-- C9 as amended: every invalid result of `validateInstructions` carries a
DEFINED reason string (possibly empty, when a custom verifier throws an
`Error` with an empty message), and consequently the
`?? "invalid_instructions"` fallback in `verify` is unreachable: the
substituted reason is always the explicit branch's reason. -/
theorem validateInstructions_invalid_reason_defined (penv : ParseEnv)
    (cfg : SvmVerificationConfig) (instrs : List Instruction)
    (signers : List String) (fp : String)
    (h : (validateInstructions penv cfg instrs signers fp).isValid = false) :
    ∃ s, (validateInstructions penv cfg instrs signers fp).reason = some s
      ∧ (validateInstructions penv cfg instrs signers fp).reason.getD
          "invalid_instructions" = s := by
  rcases validateInstructions_shape penv cfg instrs signers fp with hs | ⟨s, hs⟩
  · rw [hs] at h; cases h
  · exact ⟨s, by rw [hs], by rw [hs]; rfl⟩

/-- Witness for C9 (amended): the empty instruction list is invalid and its
reason is a defined string equal to what `verify` would substitute. -/
theorem validateInstructions_invalid_reason_defined_witness :
    ∃ s, (validateInstructions fixtureParseEnv {} [] [] "").reason = some s
      ∧ (validateInstructions fixtureParseEnv {} [] [] "").reason.getD
          "invalid_instructions" = s :=
  validateInstructions_invalid_reason_defined fixtureParseEnv {} [] [] "" rfl

/-! ## C10 -/

/-- Signer controlling two addresses. -/
def twoAddrSigner : SignerEnv := { okSigner with addresses := ["A", "B"] }

/-- C10: `getExtra` with a `Math.random()` draw in `[0, 1)`.  With at least
one controlled address the returned record's `feePayer` is one of the
signer's addresses; with no addresses it still returns a record, whose
`feePayer` is `undefined` (`none`). -/
theorem getExtra_feePayer_spec (signer : SignerEnv) (rand : ℚ)
    (h0 : 0 ≤ rand) (h1 : rand < 1) :
    (signer.addresses ≠ [] →
      ∃ a, (getExtra signer rand).feePayer = some a ∧ a ∈ signer.addresses)
    ∧ (signer.addresses = [] → (getExtra signer rand).feePayer = none) := by
  constructor
  · intro hne
    have hn : 0 < signer.addresses.length := List.length_pos.mpr hne
    have hlt : rand * (signer.addresses.length : ℚ) < (signer.addresses.length : ℚ) := by
      calc rand * (signer.addresses.length : ℚ)
          < 1 * (signer.addresses.length : ℚ) := by
            apply mul_lt_mul_of_pos_right h1
            exact_mod_cast hn
        _ = (signer.addresses.length : ℚ) := one_mul _
    have hfloor : ⌊rand * (signer.addresses.length : ℚ)⌋ < (signer.addresses.length : ℤ) := by
      rw [Int.floor_lt]
      exact_mod_cast hlt
    have hnn : 0 ≤ ⌊rand * (signer.addresses.length : ℚ)⌋ :=
      Int.floor_nonneg.mpr (mul_nonneg h0 (by positivity))
    have hidx : (⌊rand * (signer.addresses.length : ℚ)⌋).toNat
        < signer.addresses.length := by omega
    refine ⟨signer.addresses[(⌊rand * (signer.addresses.length : ℚ)⌋).toNat], ?_, ?_⟩
    · simp only [getExtra]
      exact List.getElem?_eq_getElem hidx
    · exact List.getElem_mem hidx
  · intro hempty
    simp [getExtra, hempty]

/-- Witness for C10: with two controlled addresses and the draw 1/2, the
returned fee payer is one of the signer's addresses. -/
theorem getExtra_feePayer_spec_witness :
    ∃ a, (getExtra twoAddrSigner (1 / 2)).feePayer = some a
      ∧ a ∈ twoAddrSigner.addresses :=
  (getExtra_feePayer_spec twoAddrSigner (1 / 2) (by norm_num) (by norm_num)).1
    (by decide)

end X402Svm
